import Mathlib

/-!
Verification of the phibers batch-scoring pipeline (src/bin/phibers.py).

The program converts protein sequences into dyad (2-letter) count vectors
and applies a pretrained classifier to each.  The embedding below follows
the Python source function by function:

* a protein sequence is a `List Char`, a dyad a `Char × Char`;
* a Python `dict` is an association list `List (K × V)` in insertion order,
  with `dinsert` modelling `d[k] = v` (an existing key keeps its position
  and gets its value overwritten; a new key is appended);
* Python's `str.count` is non-overlapping left-to-right counting; it is
  only ever called with 2-character patterns, embedded as `pyCount2`;
* the external fasta parser, the pretrained model artifact and the CSV
  writer are external collaborators; they enter the embedding as explicit
  parameters (`parse`, `loadModel`) and an explicit outcome (`RunOutcome`).
-/

set_option autoImplicit false
set_option maxRecDepth 100000

namespace Phibers

/-- The fixed 20-letter amino-acid alphabet `LETTERS` of `string_two_mers`. -/
def LETTERS : List Char :=
  ['A', 'C', 'D', 'E', 'F', 'G', 'H', 'I', 'K', 'L',
   'M', 'N', 'P', 'Q', 'R', 'S', 'T', 'V', 'W', 'Y']

/-- `string_two_mers()`: all ordered pairs of alphabet letters, the first
letter iterated in the outer position, the second in the inner position
(`[(l1, l2) for l1 in LETTERS for l2 in LETTERS]`).  A 2-character Python
string is embedded as the pair of its characters. -/
def string_two_mers : List (Char × Char) :=
  LETTERS.flatMap (fun letter1 => LETTERS.map (fun letter2 => (letter1, letter2)))

/-- Python `sequence.count(mer)` for a 2-character pattern `mer`:
non-overlapping, left-to-right; after a match the scan advances past both
matched characters, otherwise it advances by one. -/
def pyCount2 : List Char → Char × Char → Nat
  | a :: b :: rest, mer =>
      if a = mer.1 ∧ b = mer.2 then pyCount2 rest mer + 1
      else pyCount2 (b :: rest) mer
  | _, _ => 0

/-- The positions (0-based) at which the non-overlapping, left-to-right scan
described by the spec matches: from scan position `i`, a match records `i`
and resumes at `i + 2`; a non-match resumes at `i + 1`.  Stated from the
spec's words, to be compared with `pyCount2`. -/
def scanMatches : List Char → Char × Char → Nat → List Nat
  | a :: b :: rest, mer, i =>
      if a = mer.1 ∧ b = mer.2 then i :: scanMatches rest mer (i + 2)
      else scanMatches (b :: rest) mer (i + 1)
  | _, _, _ => []

/-- Python dict assignment `d[k] = v` on an insertion-ordered association
list: an existing key keeps its position and gets its value replaced; a new
key is appended at the end. -/
def dinsert {K V : Type} [DecidableEq K] (d : List (K × V)) (k : K) (v : V) :
    List (K × V) :=
  if d.any (fun p => p.1 = k) then
    d.map (fun p => if p.1 = k then (k, v) else p)
  else d ++ [(k, v)]

/-- Python dict read `d[k]`: the value at the first (hence only) entry whose
key is `k`, if any. -/
def dlookup {K V : Type} [DecidableEq K] (d : List (K × V)) (k : K) : Option V :=
  (d.find? (fun p => decide (p.1 = k))).map Prod.snd

/-- `count_two_mers(sequence, two_mers)`: a dict mapping every mer of
`two_mers` to `sequence.count(mer)`, built by dict assignment in `two_mers`
order. -/
def count_two_mers (sequence : List Char) (two_mers : List (Char × Char)) :
    List ((Char × Char) × Nat) :=
  two_mers.foldl (fun dictionary mer => dinsert dictionary mer (pyCount2 sequence mer)) []

/-- A fasta record as produced by the external parser: an identifier and a
sequence. -/
structure Fasta where
  id : String
  seq : List Char
  deriving DecidableEq

/-- `construct_dataframe(two_mers, fastas)`: a dict keyed by `fasta.id`
with value `count_two_mers(fasta.seq, two_mers)` for each record, embedded
together with `pd.DataFrame.from_dict(..., orient='index')` as the
insertion-ordered association list itself (rows in dict key order, each row
carrying its column-keyed counts). -/
def construct_dataframe (two_mers : List (Char × Char)) (fastas : List Fasta) :
    List (String × List ((Char × Char) × Nat)) :=
  fastas.foldl
    (fun dictionary fasta => dinsert dictionary fasta.id (count_two_mers fasta.seq two_mers))
    []

/-- The opaque pretrained classifier: one operation, matrix in, one label
per row out (the length contract is the collaborator's, stated as a
hypothesis where needed). -/
structure Model where
  predict : List (List Nat) → List Int

/-- `make_prediction(df)`: load the model artifact (`loadModel` stands for
`load(model_source)`, whose failure is an uncaught exception, embedded as
`Except.error`), then predict on the dataframe's numeric matrix. -/
def make_prediction (loadModel : Except String Model)
    (df : List (String × List ((Char × Char) × Nat))) : Except String (List Int) :=
  match loadModel with
  | .error e => .error e
  | .ok model => .ok (model.predict (df.map (fun row => row.2.map Prod.snd)))

/-- The CSV written by `result.to_csv(output, index=True, index_label="Protein ID")`:
the index header, the prediction column header, and one (identifier, label)
row per dataframe row. -/
structure Csv where
  indexLabel : String
  columnLabel : String
  rows : List (String × Int)
  deriving DecidableEq

/-- Observable outcome of `start`: the zero-record early return, a fatal
abort (uncaught exception) with its diagnostic, or a written output file. -/
inductive RunOutcome where
  | noRecords : RunOutcome
  | fatal : String → RunOutcome
  | wroteOutput : Csv → RunOutcome
  deriving DecidableEq

/-- `start(source, output)` from the point where the fasta records are in
hand: return early when no records were found; otherwise build the
dataframe, predict (a model-load failure propagates as a fatal abort), and
write the CSV.  Assigning `two_mer_df['prediction'] = prediction` raises in
pandas when the lengths differ, embedded as the mismatch `fatal` branch. -/
def start (fastas : List Fasta) (loadModel : Except String Model) : RunOutcome :=
  if fastas.length = 0 then .noRecords
  else
    match make_prediction loadModel (construct_dataframe string_two_mers fastas) with
    | .error e => .fatal e
    | .ok prediction =>
        if prediction.length = (construct_dataframe string_two_mers fastas).length then
          .wroteOutput ⟨"Protein ID", "prediction",
            ((construct_dataframe string_two_mers fastas).map Prod.fst).zip prediction⟩
        else .fatal "Length of values does not match length of index"

/-- `read_fastas_from_file(file)`: parse the file, returning the records
and a per-file diagnostic; any parse failure is caught (`except:`) and
degrades to an empty record list plus a failure diagnostic. -/
def read_fastas_from_file (file : String) (parse : String → Except String (List Fasta)) :
    List Fasta × List String :=
  match parse file with
  | .ok fastas => (fastas, ["Number of sequences in '" ++ file ++ "': found"])
  | .error _ => ([], ["Failed to load file '" ++ file ++ "'."])

/-- `read_fastas_from_directory(directory)`: fold over the directory's
entries, concatenating each file's records and diagnostics. -/
def read_fastas_from_directory (filenames : List String)
    (parse : String → Except String (List Fasta)) : List Fasta × List String :=
  filenames.foldl
    (fun acc filename =>
      let r := read_fastas_from_file filename parse
      (acc.1 ++ r.1, acc.2 ++ r.2))
    ([], ["Reading from directory."])

/-- A concrete stand-in model used to instantiate hypotheses about the
opaque classifier: it predicts label 0 for every row. -/
def constModel : Model := ⟨fun m => m.map (fun _ => 0)⟩

/-- A concrete parser stand-in: fails on the file named "bad", succeeds
with one record elsewhere. -/
def badParse : String → Except String (List Fasta) :=
  fun file => if file = "bad" then .error "boom" else .ok [⟨"P1", ['A']⟩]

/-- The two records of the spec's end-to-end example. -/
def exampleFastas : List Fasta :=
  [⟨"P1", String.toList "ACACAC"⟩, ⟨"P2", String.toList "GGGGGG"⟩]

/-- Two records sharing the identifier "P1", with different sequences. -/
def dupFastas : List Fasta :=
  [⟨"P1", String.toList "AA"⟩, ⟨"P1", String.toList "CC"⟩]

/-! ## Helper lemmas about the dict embedding -/

theorem dinsert_fresh {K V : Type} [DecidableEq K] {d : List (K × V)} {k : K} (v : V)
    (h : ∀ p ∈ d, p.1 ≠ k) : dinsert d k v = d ++ [(k, v)] := by
  have hx : d.any (fun p => p.1 = k) = false := by
    rw [List.any_eq_false]
    intro p hp
    simpa using h p hp
  simp [dinsert, hx]

theorem mem_dinsert {K V : Type} [DecidableEq K] {d : List (K × V)} {k : K} {v : V}
    {p : K × V} (hp : p ∈ dinsert d k v) : p ∈ d ∨ p = (k, v) := by
  unfold dinsert at hp
  by_cases hc : d.any (fun q => q.1 = k) = true
  · rw [if_pos hc] at hp
    obtain ⟨q, hq, hq2⟩ := List.mem_map.1 hp
    by_cases hqk : q.1 = k
    · rw [if_pos hqk] at hq2
      right
      exact hq2.symm
    · rw [if_neg hqk] at hq2
      left
      exact hq2 ▸ hq
  · rw [if_neg hc] at hp
    rcases List.mem_append.1 hp with h | h
    · left
      exact h
    · right
      simpa using h

theorem mem_foldl_dinsert {K V A : Type} [DecidableEq K] (g : A → K) (f : A → V) :
    ∀ (l : List A) (d : List (K × V)) (p : K × V),
      p ∈ l.foldl (fun dict a => dinsert dict (g a) (f a)) d →
      p ∈ d ∨ ∃ a ∈ l, p.1 = g a ∧ p.2 = f a
  | [], _, _, hp => Or.inl hp
  | a :: l, d, p, hp => by
    rcases mem_foldl_dinsert g f l (dinsert d (g a) (f a)) p (by simpa using hp) with
      h | ⟨b, hb, hb1, hb2⟩
    · rcases mem_dinsert h with h2 | h2
      · exact Or.inl h2
      · exact Or.inr ⟨a, List.mem_cons_self a l, by rw [h2], by rw [h2]⟩
    · exact Or.inr ⟨b, List.mem_cons_of_mem a hb, hb1, hb2⟩

theorem foldl_dinsert_map {K V : Type} [DecidableEq K] (f : K → V) :
    ∀ (l : List K) (d : List (K × V)), l.Nodup → (∀ p ∈ d, p.1 ∉ l) →
      l.foldl (fun dict k => dinsert dict k (f k)) d = d ++ l.map (fun k => (k, f k))
  | [], d, _, _ => by simp
  | k :: l, d, hnd, hd => by
    simp only [List.foldl_cons]
    rw [dinsert_fresh (f k) (fun p hp hpk => hd p hp (hpk ▸ List.mem_cons_self k l))]
    rw [foldl_dinsert_map f l (d ++ [(k, f k)]) (List.nodup_cons.1 hnd).2 ?_]
    · simp
    · intro p hp
      rcases List.mem_append.1 hp with h | h
      · exact fun hcl => hd p h (List.mem_cons_of_mem k hcl)
      · have : p = (k, f k) := by simpa using h
        rw [this]
        exact (List.nodup_cons.1 hnd).1

theorem count_two_mers_eq_map (s : List Char) (tm : List (Char × Char)) (h : tm.Nodup) :
    count_two_mers s tm = tm.map (fun mer => (mer, pyCount2 s mer)) := by
  simpa using foldl_dinsert_map (pyCount2 s) tm [] h (by simp)

theorem dlookup_map_self {K V : Type} [DecidableEq K] (f : K → V) :
    ∀ (l : List K) (k : K),
      dlookup (l.map (fun x => (x, f x))) k = if k ∈ l then some (f k) else none
  | [], k => by simp [dlookup]
  | x :: l, k => by
    have ih := dlookup_map_self f l k
    by_cases hx : x = k
    · subst hx
      unfold dlookup
      rw [List.map_cons, List.find?_cons_of_pos _ (by simp)]
      simp
    · unfold dlookup at ih ⊢
      rw [List.map_cons, List.find?_cons_of_neg _ (by simpa using hx), ih]
      by_cases hk : k ∈ l
      · rw [if_pos hk, if_pos (List.mem_cons_of_mem x hk)]
      · rw [if_neg hk,
          if_neg (by simp only [List.mem_cons]; rintro (h | h); exacts [hx h.symm, hk h])]

/-! ## Helper lemmas about the feature space, counting and the pipeline -/

theorem LETTERS_nodup : LETTERS.Nodup := by decide

theorem string_two_mers_eq_product : string_two_mers = LETTERS.product LETTERS := rfl

theorem string_two_mers_nodup : string_two_mers.Nodup := by
  rw [string_two_mers_eq_product]
  exact LETTERS_nodup.product LETTERS_nodup

theorem length_scanMatches (s : List Char) (mer : Char × Char) (i : Nat) :
    (scanMatches s mer i).length = pyCount2 s mer := by
  induction s, mer, i using scanMatches.induct with
  | case1 a b rest mer i h ih =>
    simp only [scanMatches, pyCount2, if_pos h, List.length_cons, ih]
  | case2 a b rest mer i h ih =>
    simp only [scanMatches, pyCount2, if_neg h, ih]
  | case3 s mer i h =>
    cases s with
    | nil => rfl
    | cons a t =>
      cases t with
      | nil => rfl
      | cons b r => exact absurd rfl (h a b r)

theorem pyCount2_le_half_length (s : List Char) (mer : Char × Char) :
    pyCount2 s mer ≤ s.length / 2 := by
  induction s, mer using pyCount2.induct with
  | case1 a b rest mer h ih =>
    simp only [pyCount2, if_pos h, List.length_cons]
    omega
  | case2 a b rest mer h ih =>
    simp only [pyCount2, if_neg h, List.length_cons] at ih ⊢
    omega
  | case3 s mer h =>
    cases s with
    | nil => simp [pyCount2]
    | cons a t =>
      cases t with
      | nil => simp [pyCount2]
      | cons b r => exact absurd rfl (h a b r)

theorem dlookup_count_two_mers (s : List Char) (d : Char × Char)
    (hd : d ∈ string_two_mers) :
    dlookup (count_two_mers s string_two_mers) d = some (pyCount2 s d) := by
  rw [count_two_mers_eq_map s _ string_two_mers_nodup, dlookup_map_self, if_pos hd]

theorem construct_dataframe_singleton (tm : List (Char × Char)) (fa : Fasta) :
    construct_dataframe tm [fa] = [(fa.id, count_two_mers fa.seq tm)] := rfl

theorem construct_dataframe_pair (tm : List (Char × Char)) (fa1 fa2 : Fasta)
    (h : fa1.id ≠ fa2.id) :
    construct_dataframe tm [fa1, fa2]
      = [(fa1.id, count_two_mers fa1.seq tm), (fa2.id, count_two_mers fa2.seq tm)] := by
  unfold construct_dataframe
  simp only [List.foldl_cons, List.foldl_nil]
  rw [show dinsert [] fa1.id (count_two_mers fa1.seq tm)
        = [(fa1.id, count_two_mers fa1.seq tm)] from rfl]
  rw [dinsert_fresh _ (by simpa using h)]
  rfl

theorem construct_dataframe_dup_pair (tm : List (Char × Char)) (fa1 fa2 : Fasta)
    (h : fa1.id = fa2.id) :
    construct_dataframe tm [fa1, fa2] = [(fa2.id, count_two_mers fa2.seq tm)] := by
  unfold construct_dataframe
  simp only [List.foldl_cons, List.foldl_nil]
  rw [show dinsert [] fa1.id (count_two_mers fa1.seq tm)
        = [(fa1.id, count_two_mers fa1.seq tm)] from rfl]
  simp [dinsert, h]

theorem start_ok (fastas : List Fasta) (model : Model) (h : fastas.length ≠ 0)
    (hp : (model.predict ((construct_dataframe string_two_mers fastas).map
            (fun r => r.2.map Prod.snd))).length
          = (construct_dataframe string_two_mers fastas).length) :
    start fastas (Except.ok model) = RunOutcome.wroteOutput
      ⟨"Protein ID", "prediction",
        ((construct_dataframe string_two_mers fastas).map Prod.fst).zip
          (model.predict ((construct_dataframe string_two_mers fastas).map
            (fun r => r.2.map Prod.snd)))⟩ := by
  unfold start make_prediction
  rw [if_neg h]
  simp only []
  rw [if_pos hp]

theorem read_fastas_from_directory_fst (parse : String → Except String (List Fasta)) :
    ∀ (filenames : List String),
      (read_fastas_from_directory filenames parse).1
        = (filenames.map (fun g => (read_fastas_from_file g parse).1)).flatten := by
  have key : ∀ (l : List String) (acc : List Fasta × List String),
      (l.foldl (fun acc filename =>
          let r := read_fastas_from_file filename parse
          (acc.1 ++ r.1, acc.2 ++ r.2)) acc).1
        = acc.1 ++ (l.map (fun g => (read_fastas_from_file g parse).1)).flatten := by
    intro l
    induction l with
    | nil => intro acc; simp
    | cons x l ih =>
      intro acc
      simp only [List.foldl_cons, ih, List.map_cons, List.flatten_cons, List.append_assoc]
  intro filenames
  simpa using key filenames ([], ["Reading from directory."])

/-! ## Claim theorems -/

/-- C1: for every sequence and every dyad of the feature space, the count
stored by `count_two_mers` equals the number of matches of the
non-overlapping, left-to-right scan that advances by the full dyad length
(2) on each match; in particular the dyad "AA" in the sequence "AAAA" is
counted twice (matches at positions 0 and 2), not three times. -/
theorem count_two_mers_counts_nonoverlapping_scan :
    (∀ (s : List Char) (d : Char × Char), d ∈ string_two_mers →
        dlookup (count_two_mers s string_two_mers) d
          = some (scanMatches s d 0).length) ∧
    dlookup (count_two_mers (String.toList "AAAA") string_two_mers) ('A', 'A')
      = some 2 ∧
    scanMatches (String.toList "AAAA") ('A', 'A') 0 = [0, 2] := by
  refine ⟨fun s d hd => ?_, ?_, by decide⟩
  · rw [dlookup_count_two_mers s d hd, length_scanMatches]
  · rw [dlookup_count_two_mers _ _ (by decide)]
    decide

/-- Witness for C1 at a concrete input: the dyad "AC" in "ACAC". -/
theorem count_two_mers_counts_nonoverlapping_scan_witness :
    dlookup (count_two_mers (String.toList "ACAC") string_two_mers) ('A', 'C')
      = some (scanMatches (String.toList "ACAC") ('A', 'C') 0).length :=
  count_two_mers_counts_nonoverlapping_scan.1 (String.toList "ACAC") ('A', 'C')
    (by decide)

/-- C2: `string_two_mers` has exactly 400 entries, pairwise distinct, each an
ordered pair of alphabet letters, and entry `i` is the pair of letter `i / 20`
(outer position) and letter `i % 20` (inner position), preserving alphabet
order.  The invariance across repeated calls is immediate in the embedding:
`string_two_mers` is a closed constant, so any two of its uses are
definitionally the same list. -/
theorem string_two_mers_spec :
    string_two_mers.length = 400 ∧
    string_two_mers.Nodup ∧
    (∀ p ∈ string_two_mers, p.1 ∈ LETTERS ∧ p.2 ∈ LETTERS) ∧
    (∀ i : Fin 400, string_two_mers.getD i.1 ('A', 'A')
        = (LETTERS.getD (i.1 / 20) 'A', LETTERS.getD (i.1 % 20) 'A')) := by
  refine ⟨?_, string_two_mers_nodup, by decide, by decide⟩
  rw [show string_two_mers = LETTERS ×ˢ LETTERS from rfl, List.length_product]
  decide

/-- Witness for C2 at a concrete entry of the feature space. -/
theorem string_two_mers_spec_witness :
    ('A', 'C').1 ∈ LETTERS ∧ ('A', 'C').2 ∈ LETTERS :=
  string_two_mers_spec.2.2.1 ('A', 'C') (by decide)

/-- C3: every row of the dataframe built by `construct_dataframe` over the
feature space has its columns exactly in feature-space order, whatever the
records are. -/
theorem construct_dataframe_column_order (fastas : List Fasta)
    (row : String × List ((Char × Char) × Nat))
    (hrow : row ∈ construct_dataframe string_two_mers fastas) :
    row.2.map Prod.fst = string_two_mers := by
  unfold construct_dataframe at hrow
  rcases mem_foldl_dinsert (fun fa : Fasta => fa.id)
      (fun fa : Fasta => count_two_mers fa.seq string_two_mers) fastas [] row hrow with
    h | ⟨fa, _, _, h2⟩
  · cases h
  · rw [h2, count_two_mers_eq_map _ _ string_two_mers_nodup, List.map_map]
    rw [show (Prod.fst ∘ fun mer : Char × Char => (mer, pyCount2 fa.seq mer)) = id from rfl]
    exact List.map_id _

/-- Witness for C3 at a concrete one-record input. -/
theorem construct_dataframe_column_order_witness :
    ("P1", count_two_mers ['A'] string_two_mers).2.map Prod.fst = string_two_mers :=
  construct_dataframe_column_order [⟨"P1", ['A']⟩] _ (by
    rw [construct_dataframe_singleton]
    exact List.mem_singleton.2 rfl)

/-- C4: when the input yields zero records, `start` returns the "no records"
outcome: the classifier is never invoked, no output is written, and nothing
fatal is raised. -/
theorem start_zero_records (fastas : List Fasta) (loadModel : Except String Model)
    (h : fastas.length = 0) :
    start fastas loadModel = RunOutcome.noRecords ∧
    (∀ csv, start fastas loadModel ≠ RunOutcome.wroteOutput csv) ∧
    (∀ e, start fastas loadModel ≠ RunOutcome.fatal e) := by
  have hs : start fastas loadModel = RunOutcome.noRecords := by
    unfold start
    rw [if_pos h]
  refine ⟨hs, fun csv hc => ?_, fun e hc => ?_⟩
  · rw [hs] at hc
    cases hc
  · rw [hs] at hc
    cases hc

/-- Witness for C4: the empty record list, with an arbitrary model-load
outcome. -/
theorem start_zero_records_witness :
    start [] (Except.error "e") = RunOutcome.noRecords :=
  (start_zero_records [] (Except.error "e") rfl).1

/-- C5 counterexample: the claim says P1's vector for "ACACAC" is 0 at every
dyad over the letters A and C other than "AC"; but "CA" is such a dyad and
its non-overlapping count in "ACACAC" is 2 (matches at positions 1 and 3),
not 0. -/
theorem end_to_end_example_counterexample :
    dlookup (count_two_mers (String.toList "ACACAC") string_two_mers) ('C', 'A')
      = some 2 ∧
    dlookup (count_two_mers (String.toList "ACACAC") string_two_mers) ('C', 'A')
      ≠ some 0 := by
  have h := dlookup_count_two_mers (String.toList "ACACAC") ('C', 'A') (by decide)
  rw [show pyCount2 (String.toList "ACACAC") ('C', 'A') = 2 from by decide] at h
  refine ⟨h, ?_⟩
  rw [h]
  decide

/-- C5 (amended): for records P1 = "ACACAC" and P2 = "GGGGGG", P1's vector
has count 3 at "AC", count 2 at "CA" and 0 at "AA" and "CC"; P2's vector has
0 at "AC" and count 3 at "GG"; and (for any model honoring the
one-label-per-row contract) the output table has exactly 2 rows with
identifiers "P1" then "P2" in discovery order. -/
theorem end_to_end_example (model : Model)
    (hp : ∀ m : List (List Nat), (model.predict m).length = m.length) :
    dlookup (count_two_mers (String.toList "ACACAC") string_two_mers) ('A', 'C') = some 3 ∧
    dlookup (count_two_mers (String.toList "ACACAC") string_two_mers) ('C', 'A') = some 2 ∧
    dlookup (count_two_mers (String.toList "ACACAC") string_two_mers) ('A', 'A') = some 0 ∧
    dlookup (count_two_mers (String.toList "ACACAC") string_two_mers) ('C', 'C') = some 0 ∧
    dlookup (count_two_mers (String.toList "GGGGGG") string_two_mers) ('A', 'C') = some 0 ∧
    dlookup (count_two_mers (String.toList "GGGGGG") string_two_mers) ('G', 'G') = some 3 ∧
    ∃ csv, start exampleFastas (Except.ok model) = RunOutcome.wroteOutput csv ∧
      csv.rows.map Prod.fst = ["P1", "P2"] ∧ csv.rows.length = 2 := by
  refine ⟨?_, ?_, ?_, ?_, ?_, ?_, ?_⟩
  · rw [dlookup_count_two_mers _ _ (by decide)]
    decide
  · rw [dlookup_count_two_mers _ _ (by decide)]
    decide
  · rw [dlookup_count_two_mers _ _ (by decide)]
    decide
  · rw [dlookup_count_two_mers _ _ (by decide)]
    decide
  · rw [dlookup_count_two_mers _ _ (by decide)]
    decide
  · rw [dlookup_count_two_mers _ _ (by decide)]
    decide
  · have hdf : construct_dataframe string_two_mers exampleFastas
        = [("P1", count_two_mers (String.toList "ACACAC") string_two_mers),
           ("P2", count_two_mers (String.toList "GGGGGG") string_two_mers)] :=
      construct_dataframe_pair string_two_mers ⟨"P1", String.toList "ACACAC"⟩
        ⟨"P2", String.toList "GGGGGG"⟩ (by decide)
    have hlen : (model.predict ((construct_dataframe string_two_mers exampleFastas).map
        (fun r => r.2.map Prod.snd))).length
        = (construct_dataframe string_two_mers exampleFastas).length := by
      rw [hp, List.length_map]
    have hfst : (construct_dataframe string_two_mers exampleFastas).map Prod.fst
        = ["P1", "P2"] := by
      rw [hdf]
      rfl
    refine ⟨_, start_ok exampleFastas model (by decide) hlen, ?_, ?_⟩
    · rw [List.map_fst_zip _ _ (by rw [List.length_map, hlen]), hfst]
    · rw [List.length_zip, List.length_map, hlen, Nat.min_self, hdf]
      rfl

/-- Witness for C5 at the constant-0 model. -/
theorem end_to_end_example_witness :
    ∃ csv, start exampleFastas (Except.ok constModel) = RunOutcome.wroteOutput csv ∧
      csv.rows.map Prod.fst = ["P1", "P2"] ∧ csv.rows.length = 2 :=
  (end_to_end_example constModel (fun m => by simp [constModel])).2.2.2.2.2.2

/-- C6 counterexample: two input records share the identifier "P1"; the
claim requires one output row per input record (two rows, with a duplicate
identifier), but the dataframe keeps a single row. -/
theorem duplicate_ids_counterexample :
    (construct_dataframe string_two_mers dupFastas).length = 1 ∧ (1 : Nat) ≠ 2 := by
  refine ⟨?_, by decide⟩
  rw [show construct_dataframe string_two_mers dupFastas
      = [("P1", count_two_mers (String.toList "CC") string_two_mers)] from
    construct_dataframe_dup_pair string_two_mers ⟨"P1", String.toList "AA"⟩
      ⟨"P1", String.toList "CC"⟩ rfl]
  rfl

/-- C6 (amended): duplicate record identifiers are neither rejected nor kept
as separate rows: the dict keyed by record id deduplicates them
last-write-wins, so the output has one row per distinct identifier, holding
the counts of the last record bearing that id ("CC" here, whose "CC" count
is 1, not the first record's "AA" counts, whose "CC" count would be 0). -/
theorem duplicate_ids_last_write_wins :
    construct_dataframe string_two_mers dupFastas
      = [("P1", count_two_mers (String.toList "CC") string_two_mers)] ∧
    dlookup (count_two_mers (String.toList "CC") string_two_mers) ('C', 'C') = some 1 ∧
    dlookup (count_two_mers (String.toList "AA") string_two_mers) ('C', 'C') = some 0 := by
  refine ⟨construct_dataframe_dup_pair string_two_mers ⟨"P1", String.toList "AA"⟩
    ⟨"P1", String.toList "CC"⟩ rfl, ?_, ?_⟩
  · rw [dlookup_count_two_mers _ _ (by decide)]
    decide
  · rw [dlookup_count_two_mers _ _ (by decide)]
    decide

/-- C7: with at least one record and a loaded model honoring the
one-label-per-row contract, `start` writes a comma-separated table whose
index header is "Protein ID", with exactly one row per dataframe row, first
column the record identifiers in dataframe (discovery) order and second
column the model's predictions; and no output file is ever written when
zero records were found. -/
theorem start_output_format (fastas : List Fasta) (model : Model)
    (h : fastas.length ≠ 0)
    (hp : ∀ m : List (List Nat), (model.predict m).length = m.length) :
    (∃ csv, start fastas (Except.ok model) = RunOutcome.wroteOutput csv ∧
       csv.indexLabel = "Protein ID" ∧
       csv.rows.length = (construct_dataframe string_two_mers fastas).length ∧
       csv.rows.map Prod.fst = (construct_dataframe string_two_mers fastas).map Prod.fst ∧
       csv.rows.map Prod.snd
         = model.predict ((construct_dataframe string_two_mers fastas).map
             (fun r => r.2.map Prod.snd))) ∧
    (∀ (lm : Except String Model) csv, start [] lm ≠ RunOutcome.wroteOutput csv) := by
  constructor
  · have hlen : (model.predict ((construct_dataframe string_two_mers fastas).map
        (fun r => r.2.map Prod.snd))).length
        = (construct_dataframe string_two_mers fastas).length := by
      rw [hp, List.length_map]
    refine ⟨_, start_ok fastas model h hlen, rfl, ?_, ?_, ?_⟩
    · rw [List.length_zip, List.length_map, hlen, Nat.min_self]
    · exact List.map_fst_zip _ _ (by rw [List.length_map, hlen])
    · exact List.map_snd_zip _ _ (by rw [List.length_map, hlen])
  · intro lm csv hc
    rw [show start [] lm = RunOutcome.noRecords from rfl] at hc
    cases hc

/-- Witness for C7 at a concrete one-record input and the constant-0 model. -/
theorem start_output_format_witness :
    (∃ csv, start [⟨"P1", ['A', 'C']⟩] (Except.ok constModel) = RunOutcome.wroteOutput csv ∧
       csv.indexLabel = "Protein ID" ∧
       csv.rows.length = (construct_dataframe string_two_mers [⟨"P1", ['A', 'C']⟩]).length ∧
       csv.rows.map Prod.fst
         = (construct_dataframe string_two_mers [⟨"P1", ['A', 'C']⟩]).map Prod.fst ∧
       csv.rows.map Prod.snd
         = constModel.predict ((construct_dataframe string_two_mers [⟨"P1", ['A', 'C']⟩]).map
             (fun r => r.2.map Prod.snd))) ∧
    (∀ (lm : Except String Model) csv, start [] lm ≠ RunOutcome.wroteOutput csv) :=
  start_output_format [⟨"P1", ['A', 'C']⟩] constModel (by decide)
    (fun m => by simp [constModel])

/-- C8: a failing parse is caught inside `read_fastas_from_file`: the file
contributes the empty record list together with a failure diagnostic, and
the directory reader still processes every file, concatenating the per-file
results; nothing propagates as an error (both readers are total). -/
theorem parse_failure_recovery (filenames : List String)
    (parse : String → Except String (List Fasta)) (f e : String)
    (_hf : f ∈ filenames) (he : parse f = Except.error e) :
    (read_fastas_from_file f parse).1 = [] ∧
    (read_fastas_from_file f parse).2 = ["Failed to load file '" ++ f ++ "'."] ∧
    (read_fastas_from_directory filenames parse).1
      = (filenames.map (fun g => (read_fastas_from_file g parse).1)).flatten := by
  refine ⟨?_, ?_, read_fastas_from_directory_fst parse filenames⟩
  · unfold read_fastas_from_file
    rw [he]
  · unfold read_fastas_from_file
    rw [he]

/-- Witness for C8: a directory with one good and one failing file. -/
theorem parse_failure_recovery_witness :
    (read_fastas_from_file "bad" badParse).1 = [] ∧
    (read_fastas_from_file "bad" badParse).2 = ["Failed to load file '" ++ "bad" ++ "'."] ∧
    (read_fastas_from_directory ["good", "bad"] badParse).1
      = ((["good", "bad"] : List String).map
          (fun g => (read_fastas_from_file g badParse).1)).flatten :=
  parse_failure_recovery ["good", "bad"] badParse "bad" "boom" (by decide) rfl

/-- C9: when the input has records but loading the model artifact fails,
`start` aborts with the fatal diagnostic and no output file is written. -/
theorem model_load_failure_aborts (fastas : List Fasta) (e : String)
    (h : fastas.length ≠ 0) :
    start fastas (Except.error e) = RunOutcome.fatal e ∧
    (∀ csv, start fastas (Except.error e) ≠ RunOutcome.wroteOutput csv) := by
  have hs : start fastas (Except.error e) = RunOutcome.fatal e := by
    unfold start
    rw [if_neg h]
    rfl
  refine ⟨hs, fun csv hc => ?_⟩
  rw [hs] at hc
  cases hc

/-- Witness for C9 at a concrete one-record input. -/
theorem model_load_failure_aborts_witness :
    start [⟨"P1", ['A']⟩] (Except.error "could not load sr_a.joblib")
      = RunOutcome.fatal "could not load sr_a.joblib" :=
  (model_load_failure_aborts [⟨"P1", ['A']⟩] "could not load sr_a.joblib" (by decide)).1

/-- C10: every count stored by `count_two_mers` lies between 0 (trivially,
being a natural number) and half the sequence length, and on the empty
sequence every stored count is 0. -/
theorem count_le_half_length :
    (∀ (s : List Char) (tm : List (Char × Char)) (p : (Char × Char) × Nat),
        p ∈ count_two_mers s tm → p.2 ≤ s.length / 2) ∧
    (∀ (tm : List (Char × Char)) (p : (Char × Char) × Nat),
        p ∈ count_two_mers [] tm → p.2 = 0) := by
  have key : ∀ (s : List Char) (tm : List (Char × Char)) (p : (Char × Char) × Nat),
      p ∈ count_two_mers s tm → ∃ mer, p.2 = pyCount2 s mer := by
    intro s tm p hp
    unfold count_two_mers at hp
    rcases mem_foldl_dinsert (fun mer : Char × Char => mer)
        (fun mer : Char × Char => pyCount2 s mer) tm [] p hp with h | ⟨mer, _, _, h2⟩
    · cases h
    · exact ⟨mer, h2⟩
  constructor
  · intro s tm p hp
    obtain ⟨mer, h2⟩ := key s tm p hp
    rw [h2]
    exact pyCount2_le_half_length s mer
  · intro tm p hp
    obtain ⟨mer, h2⟩ := key [] tm p hp
    rw [h2]
    rfl

/-- Witness for C10: the count of "AA" over the sequence "AA". -/
theorem count_le_half_length_witness :
    ((('A', 'A'), 1) : (Char × Char) × Nat).2 ≤ (['A', 'A'] : List Char).length / 2 :=
  count_le_half_length.1 ['A', 'A'] [('A', 'A')] (('A', 'A'), 1) (by decide)

end Phibers
